import Mathlib

/-!
Verification of the resource-locator-program teaching core.

Shallow embedding of the jog/teach logic of the PyLabRobot
resource-locator-program repository.  Millimeter coordinates (Python
floats) are modelled as exact rationals; the motion backend is modelled
as a function reporting per-axis success or failure; Python exceptions
become `Except` values or explicit error flags.
-/

namespace RLP

/-- The three motion axes of the channel head
(`move_channel_x` / `move_channel_y` / `move_channel_z`). -/
inductive Axis where
  | x
  | y
  | z
deriving DecidableEq, Repr

/-- pylabrobot `Coordinate`: a 3-tuple of millimeter coordinates. -/
structure Coordinate where
  x : ℚ
  y : ℚ
  z : ℚ
deriving DecidableEq, Repr

instance : Add Coordinate := ⟨fun a b => ⟨a.x + b.x, a.y + b.y, a.z + b.z⟩⟩

instance : Sub Coordinate := ⟨fun a b => ⟨a.x - b.x, a.y - b.y, a.z - b.z⟩⟩

/-- Model of `Coordinate.zero()`. -/
def Coordinate.zero : Coordinate := ⟨0, 0, 0⟩

/-- In-place update of one named field, as in `self._location.x = x`. -/
def Coordinate.setAxis (c : Coordinate) : Axis → ℚ → Coordinate
  | .x, v => ⟨v, c.y, c.z⟩
  | .y, v => ⟨c.x, v, c.z⟩
  | .z, v => ⟨c.x, c.y, v⟩

/-- Read one named field. -/
def Coordinate.axis (c : Coordinate) : Axis → ℚ
  | .x => c.x
  | .y => c.y
  | .z => c.z

/-- The motion backend, abstracted to the outcome of each per-axis move
command: `gw a v = true` means `move_channel_<a>(channel, v)` returns
normally, `false` means it raises. -/
def Gateway : Type := Axis → ℚ → Bool

/-- The `ValueError` raised by `LocationEditor.set_location` when the
first-ever set omits an axis. -/
inductive PosErr where
  | incomplete
deriving DecidableEq, Repr

/-- Model of `LocationEditor.set_location` (shared_widgets.py, lines 276-287):
on the first call all three coordinates are mandatory and a fresh
position is created; afterwards each provided axis overwrites the
corresponding field of `self._location` in place. -/
def baseSetLocation (cur : Option Coordinate) (x y z : Option ℚ) :
    Except PosErr Coordinate :=
  match cur with
  | none =>
    match x, y, z with
    | some vx, some vy, some vz => .ok ⟨vx, vy, vz⟩
    | _, _, _ => .error .incomplete
  | some c => .ok ⟨x.getD c.x, y.getD c.y, z.getD c.z⟩

/-- The body of the `try` block of `ResourceLocatorWidget.set_location`
(resource_locator.py, lines 175-184): for each provided axis, in the
fixed order x, y, z, issue the gateway command and, on success, update
the display value for that axis; a gateway failure raises, so no later
axis is attempted and the command list ends with the failing command.
Returns the display values, the issued commands in order, and whether an
error was caught (and shown as an alert). -/
def applyAxes (gw : Gateway) :
    List (Axis × Option ℚ) → Coordinate → Coordinate × List (Axis × ℚ) × Bool
  | [], d => (d, [], false)
  | (_, none) :: rest, d => applyAxes gw rest d
  | (a, some v) :: rest, d =>
    if gw a v then
      let r := applyAxes gw rest (d.setAxis a v)
      (r.1, (a, v) :: r.2.1, r.2.2)
    else (d, [(a, v)], true)

/-- Outcome of `ResourceLocatorWidget.set_location`: the internal
`_location`, the display values, the gateway commands issued in order,
and whether a gateway error was caught. -/
structure SetLocResult where
  loc : Option Coordinate
  display : Coordinate
  issued : List (Axis × ℚ)
  errored : Bool
deriving DecidableEq, Repr

/-- Model of `ResourceLocatorWidget.set_location` (resource_locator.py, lines
170-192): first `super().set_location(x, y, z)` commits every provided
axis to the internal `_location`; only then are the gateway commands
issued one axis at a time with the display updated after each success. -/
def rlSetLocation (gw : Gateway) (loc : Option Coordinate) (display : Coordinate)
    (x y z : Option ℚ) : Except PosErr SetLocResult :=
  match baseSetLocation loc x y z with
  | .error e => .error e
  | .ok newLoc =>
    let r := applyAxes gw [(Axis.x, x), (Axis.y, y), (Axis.z, z)] display
    .ok ⟨some newLoc, r.1, r.2.1, r.2.2⟩

/-- The committed internal position of a `set_location` outcome
(`None` when the call raised before committing). -/
def resultLoc (e : Except PosErr SetLocResult) : Option Coordinate :=
  match e with
  | .ok r => r.loc
  | .error _ => none

/-- The legacy combined update `LocationEditorWidget.location_display_updated`
(__main__.py, lines 572-585): computes `move_z_first = z > self._z`, sends z
first when that holds, then x and y (each only when changed), then z again
if still unequal (a no-op when it was already sent).  Returns the gateway
commands in issue order, assuming every send succeeds.  Arguments `sx sy sz`
are the stored `_x _y _z`, `x y z` the requested values. -/
def legacyUpdateOrder (sx sy sz x y z : ℚ) : List (Axis × ℚ) :=
  let moveZFirst : Bool := decide (sz < z)
  let l1 := if moveZFirst ∧ sz ≠ z then [(Axis.z, z)] else []
  let sz1 := if moveZFirst ∧ sz ≠ z then z else sz
  let l2 := if sx ≠ x then [(Axis.x, x)] else []
  let l3 := if sy ≠ y then [(Axis.y, y)] else []
  let l4 := if sz1 ≠ z then [(Axis.z, z)] else []
  l1 ++ l2 ++ l3 ++ l4

/-! ## Resource-location teaching (resource_locator.py, `resource_here`) -/

/-- Discriminant for the geometry dispatch `isinstance(resource, Plate)`. -/
inductive ResKind where
  | plate
  | other
deriving DecidableEq, Repr

/-- The attributes of a deck resource read by the teaching closure
`resource_here` (resource_locator.py, lines 46-66): the geometry kind,
the reference cell data `get_item("A1").location` and
`get_item("A1").center()`, the bounding-box height `get_size_z()`, the
parent's absolute location, and the optional committed `location`. -/
structure TeachResource where
  kind : ResKind
  a1Location : Coordinate
  a1Center : Coordinate
  sizeZ : ℚ
  parentAbs : Coordinate
  location : Option Coordinate
deriving DecidableEq, Repr

/-- The body of `resource_here` (resource_locator.py, lines 50-58): for a
`Plate`, `location = current - A1.location - A1.center() - parent.abs`;
for everything else, `location = current - (0, 0, size_z) - parent.abs`.
The previous `location` value is not consulted. -/
def resourceHere (r : TeachResource) (cur : Coordinate) : TeachResource :=
  match r.kind with
  | .plate =>
    { r with location := some (cur - r.a1Location - r.a1Center - r.parentAbs) }
  | .other =>
    { r with location := some (cur - (⟨0, 0, r.sizeZ⟩ : Coordinate) - r.parentAbs) }

/-- One row of `UnlocatedResourcesWidget`: the resource together with the
enabled state of its teach button (`self.buttons[i]`). -/
structure TeachRow where
  res : TeachResource
  buttonEnabled : Bool
deriving DecidableEq, Repr

/-- A click on a row's teach button: Qt delivers the click only while the
button is enabled; `resource_here` then commits the location and disables
the button (`self.buttons[i].setEnabled(False)`). -/
def clickTeach (row : TeachRow) (cur : Coordinate) : TeachRow :=
  if row.buttonEnabled then ⟨resourceHere row.res cur, false⟩ else row

/-! ## Tip pickup (resource_locator.py, `pick_up_tip_a1`) -/

/-- Python `round(q, 1)`: rounding to one decimal place.  Modelled as exact
decimal rounding on rationals; Python rounds ties to even, which differs
only at exact .05 ties, none of which appear in any statement below. -/
def round1 (q : ℚ) : ℚ := ((⌊10 * q + 1 / 2⌋ : ℤ) : ℚ) / 10

/-- The tip-spot data read on pickup: `get_absolute_location()` and
`center()` of `tip_rack.get_item("A1")`. -/
structure TipSpot where
  absLocation : Coordinate
  center : Coordinate
deriving DecidableEq, Repr

/-- The tip data read on pickup: `tip.total_tip_length`. -/
structure Tip where
  totalTipLength : ℚ
deriving DecidableEq, Repr

/-- Model of `ResourceLocatorWidget.pick_up_tip_a1` (resource_locator.py, lines
194-221), tracking only the jog position: on backend pickup success
(`pickupOk`), computes `tip_spot_location = absolute + center` and calls
`set_location(round(x, 1), round(y, 1), round(z + total_tip_length + 10, 1))`;
on failure the position is untouched.  Returns the `set_location` outcome
and whether the pickup succeeded. -/
def pickUpTipA1 (gw : Gateway) (pickupOk : Bool) (loc : Option Coordinate)
    (display : Coordinate) (spot : TipSpot) (tip : Tip) :
    Except PosErr SetLocResult × Bool :=
  if pickupOk then
    let l := spot.absLocation + spot.center
    (rlSetLocation gw loc display
      (some (round1 l.x)) (some (round1 l.y))
      (some (round1 (l.z + tip.totalTipLength + 10))), true)
  else (.ok ⟨loc, display, [], false⟩, false)

/-! ## Path teacher: waypoints and Python object identity

`BuildPathEditorWidget.add_intermediate_point` (path_teacher.py, lines
86-92) appends `self.get_location()` to `self.points`.  `get_location`
returns the `_location` attribute itself, a mutable `Coordinate` object
that `LocationEditor.set_location` creates once (on the first set) and
thereafter mutates in place.  To capture Python reference semantics the
state carries an explicit object store: `Coordinate` objects live in
`store`, `_location` and the waypoint entries are references into it. -/

/-- Path-teacher state: the allocated `Coordinate` objects, the reference
held by `_location`, and the references held by `self.points`. -/
structure PathState where
  store : List Coordinate
  locRef : Option ℕ
  points : List (Option ℕ)
deriving DecidableEq, Repr

/-- The widget state before any position is set. -/
def PathState.init : PathState := ⟨[], none, []⟩

/-- Model of `LocationEditor.set_location` under the object store: the first call
allocates a fresh `Coordinate` and points `_location` at it; later calls
mutate the referenced object in place, axis by axis. -/
def ptSetLocation (s : PathState) (x y z : Option ℚ) : Except PosErr PathState :=
  match s.locRef with
  | none =>
    match x, y, z with
    | some vx, some vy, some vz =>
      .ok { s with store := s.store ++ [⟨vx, vy, vz⟩], locRef := some s.store.length }
    | _, _, _ => .error .incomplete
  | some i =>
    let c := s.store.getD i Coordinate.zero
    .ok { s with store := s.store.set i ⟨x.getD c.x, y.getD c.y, z.getD c.z⟩ }

/-- Model of `add_intermediate_point`: appends `self.get_location()` — the
reference, not a copy — to the ordered waypoint list. -/
def addIntermediatePoint (s : PathState) : PathState :=
  { s with points := s.points ++ [s.locRef] }

/-- Dereference one stored waypoint. -/
def readPoint (s : PathState) (r : Option ℕ) : Option Coordinate :=
  r.bind fun i => s.store.get? i

/-- The waypoint values as observed (rendered, serialized) at state `s`. -/
def observedPoints (s : PathState) : List (Option Coordinate) :=
  s.points.map (readPoint s)

/-! ## Transfer-specification generation (path_teacher.py, `write_python_code`) -/

/-- A transfer destination: either an absolute `Coordinate` or a named
carrier-site resource. -/
inductive Destination where
  | coord (c : Coordinate)
  | resource (name : String)
deriving DecidableEq, Repr

/-- The destination rendering of `write_python_code` (path_teacher.py,
lines 103-110): `"<destination>"` when unset, `repr(coordinate)` for a
coordinate (the external `repr` is passed in as `reprC`), and
`lh.deck.get_resource("name")` for a named resource. -/
def destinationString (reprC : Coordinate → String) :
    Option Destination → String
  | none => "<destination>"
  | some (.coord c) => reprC c
  | some (.resource n) => "lh.deck.get_resource(\"" ++ n ++ "\")"

/-- Model of `BuildPathEditorWidget.write_python_code` (path_teacher.py, lines
102-124), over the observed waypoint values: with no points and no
destination a placeholder comment; with no points a bare `move_plate`
call; otherwise a `move_plate` call with an `intermediate_locations`
list. -/
def writePythonCode (reprC : Coordinate → String) (dest : Option Destination)
    (points : List Coordinate) : String :=
  let ds := destinationString reprC dest
  match points with
  | [] =>
    match dest with
    | none => "# add points or release plate to generate code"
    | some _ => "lh.move_plate(plate, to=" ++ ds ++ ")"
  | _ =>
    "lh.move_plate(plate, to=" ++ ds ++ ", intermediate_locations=[\n" ++
      String.join (points.map fun p => "  " ++ reprC p ++ ", \n") ++ "])"

/-- The structural transfer specification the builder exposes: its
`destination` and ordered waypoint list (`self.destination`,
`self.points`). -/
structure TransferSpec where
  destination : Option Destination
  waypoints : List Coordinate
deriving DecidableEq, Repr

/-- The structural description produced from the builder's state. -/
def generateTransferSpecification (dest : Option Destination)
    (points : List Coordinate) : TransferSpec :=
  ⟨dest, points⟩

/-! ## Gamepad hand-off (app.py) -/

/-- Python `v or -1` applied to an optional float
(`GamepadListener.set_location`, app.py, lines 201-204): `None` and
`0` are both falsy, so each becomes `-1`. -/
def pyOrNegOne (v : Option ℚ) : ℚ :=
  match v with
  | none => -1
  | some q => if q = 0 then -1 else q

/-- The triple emitted on `set_location_signal` by the gamepad thread. -/
def gamepadEmit (x y z : Option ℚ) : ℚ × ℚ × ℚ :=
  (pyOrNegOne x, pyOrNegOne y, pyOrNegOne z)

/-- The flag decoding of `TeachingTools.set_location_signal_handler`
(app.py, lines 135-147): `-1` means "axis not provided". -/
def decodeFlag (v : ℚ) : Option ℚ :=
  if v = -1 then none else some v

/-- Model of `set_location_signal_handler` turns the emitted triple back into
optional per-axis arguments for the active tab's `set_location`. -/
def setLocationSignalHandler (v : ℚ × ℚ × ℚ) :
    Option ℚ × Option ℚ × Option ℚ :=
  (decodeFlag v.1, decodeFlag v.2.1, decodeFlag v.2.2)

/-- The whole gamepad-to-core hand-off for one axis: emit through the
signal, decode in the handler. -/
def gamepadDecoded (v : Option ℚ) : Option ℚ :=
  decodeFlag (pyOrNegOne v)

/-! ## CLI jog tool (iswap.py, `CLI.process_key`) -/

/-- The six movement keys `w a s d j k`. -/
inductive MoveKey where
  | w
  | a
  | s
  | d
  | j
  | k
deriving DecidableEq, Repr

/-- The axis table `{"w": "y", "s": "y", "a": "x", "d": "x", "j": "z",
"k": "z"}` (iswap.py, line 197). -/
def MoveKey.axis : MoveKey → Axis
  | .w => .y
  | .s => .y
  | .a => .x
  | .d => .x
  | .j => .z
  | .k => .z

/-- Model of `multiplier = 1 if direction in "wdk" else -1` (iswap.py, line 198). -/
def MoveKey.multiplier : MoveKey → ℚ
  | .w => 1
  | .d => 1
  | .k => 1
  | _ => -1

/-- Model of `float(self.input_buffer)` where the buffer holds only digit
characters appended by the numeric-prefix branch. -/
def bufferValue (buffer : List ℕ) : ℕ :=
  buffer.foldl (fun acc d => 10 * acc + d) 0

/-- The raw distance of a movement key (iswap.py, lines 199-201): the
typed numeric prefix when one is buffered, otherwise the current step
size, signed by the key's direction. -/
def rawDistance (buffer : List ℕ) (stepSize : ℚ) (key : MoveKey) : ℚ :=
  if buffer ≠ [] then (bufferValue buffer : ℚ) * key.multiplier
  else stepSize * key.multiplier

/-- Model of `distance = min(99.9, max(-99.9, distance))` (iswap.py, line 202),
followed by the dispatch to `move_arm_x/y/z` and the buffer clear:
returns the axis moved, the distance actually sent, and the new buffer. -/
def processMoveKey (buffer : List ℕ) (stepSize : ℚ) (key : MoveKey) :
    Axis × ℚ × List ℕ :=
  let distance := rawDistance buffer stepSize key
  let distance := min (999 / 10) (max (-(999 / 10)) distance)
  (key.axis, distance, [])

/-- Trace state: the first absolute set stations the tool at `(1,2,3)`,
allocating the `_location` object. -/
def pathTraceSet : PathState :=
  (ptSetLocation PathState.init (some 1) (some 2) (some 3)).toOption.getD PathState.init

/-- Trace state: three `add_intermediate_point` presses. -/
def pathTraceAdded : PathState :=
  addIntermediatePoint (addIntermediatePoint (addIntermediatePoint pathTraceSet))

/-- Trace state: a later jog moves x to 11, mutating `_location` in place. -/
def pathTraceJogged : PathState :=
  (ptSetLocation pathTraceAdded (some 11) none none).toOption.getD pathTraceAdded

/-! ## Concrete gateways used in the concrete scenarios -/

/-- A backend on which every per-axis move succeeds. -/
def gwOk : Gateway := fun _ _ => true

/-- A backend on which the y-axis move fails and the others succeed. -/
def gwFailY : Gateway := fun a _ =>
  match a with
  | .y => false
  | _ => true

/-! ## Basic lemmas -/

theorem Coordinate.add_def (a b : Coordinate) :
    a + b = ⟨a.x + b.x, a.y + b.y, a.z + b.z⟩ := rfl

theorem Coordinate.sub_def (a b : Coordinate) :
    a - b = ⟨a.x - b.x, a.y - b.y, a.z - b.z⟩ := rfl

/-- Evaluation rule for one-decimal rounding. -/
theorem round1_eq (q : ℚ) (n : ℤ) (h1 : (n : ℚ) ≤ 10 * q + 1 / 2)
    (h2 : 10 * q + 1 / 2 < n + 1) : round1 q = (n : ℚ) / 10 := by
  unfold round1
  rw [Int.floor_eq_iff.mpr ⟨h1, h2⟩]

/-! ## Claim theorems -/

/-- Claim C3: teaching a grid-anchored (plate-like) resource at point `T`,
with parent absolute location `P`, reference-cell local offset `C` and
reference-cell center offset `M`, commits the parent-relative location
`T - C - M - P`; in particular `P = (100,100,0)`, `C = (5,5,0)`,
`M = (4,4,0)`, `T = (200,250,50)` commits `(91,141,50)`. -/
theorem teach_grid_anchored (P C M T : Coordinate) (H : ℚ)
    (prev : Option Coordinate) :
    (resourceHere ⟨.plate, C, M, H, P, prev⟩ T).location = some (T - C - M - P) ∧
    (resourceHere ⟨.plate, ⟨5, 5, 0⟩, ⟨4, 4, 0⟩, 0, ⟨100, 100, 0⟩, none⟩
        ⟨200, 250, 50⟩).location = some ⟨91, 141, 50⟩ := by
  refine ⟨rfl, ?_⟩
  simp only [resourceHere, Coordinate.sub_def, Option.some.injEq, Coordinate.mk.injEq]
  norm_num

/-- Claim C4, counterexample: for a bounding-box-anchored resource of
height 10 taught at `T = (50,60,70)` under a located-at-origin parent, the
committed location is `(50,60,60)`, and `parentAbsolute + location =
(50,60,60) ≠ T`: the round-trip does not reproduce the taught point. -/
theorem teach_roundtrip_counterexample :
    (resourceHere ⟨.other, Coordinate.zero, Coordinate.zero, 10,
        Coordinate.zero, none⟩ ⟨50, 60, 70⟩).location = some ⟨50, 60, 60⟩ ∧
    Coordinate.zero + (⟨50, 60, 60⟩ : Coordinate) ≠ (⟨50, 60, 70⟩ : Coordinate) := by
  constructor
  · simp only [resourceHere, Coordinate.sub_def, Coordinate.zero,
      Option.some.injEq, Coordinate.mk.injEq]
    norm_num
  · simp only [Coordinate.add_def, Coordinate.zero, Coordinate.mk.injEq]
    norm_num

/-- Claim C4, amended: after teaching at `T`, `parentAbsolute + location`
reproduces `T - C - M` for a grid-anchored resource and `T - (0,0,H)` for
a bounding-box-anchored one; the taught point itself is reproduced only
after adding back the landmark offset (`C + M`, resp. `(0,0,H)`). -/
theorem teach_roundtrip_amended (P C M T : Coordinate) (H : ℚ) :
    ((resourceHere ⟨.plate, C, M, H, P, none⟩ T).location.map fun l => P + l)
      = some (T - C - M) ∧
    ((resourceHere ⟨.plate, C, M, H, P, none⟩ T).location.map fun l => P + l + C + M)
      = some T ∧
    ((resourceHere ⟨.other, C, M, H, P, none⟩ T).location.map fun l => P + l)
      = some (T - ⟨0, 0, H⟩) ∧
    ((resourceHere ⟨.other, C, M, H, P, none⟩ T).location.map fun l => P + l + ⟨0, 0, H⟩)
      = some T := by
  obtain ⟨Tx, Ty, Tz⟩ := T
  obtain ⟨Px, Py, Pz⟩ := P
  obtain ⟨Cx, Cy, Cz⟩ := C
  obtain ⟨Mx, My, Mz⟩ := M
  refine ⟨?_, ?_, ?_, ?_⟩
  all_goals
    simp only [resourceHere, Coordinate.add_def, Coordinate.sub_def,
      Option.map_some', Option.some.injEq, Coordinate.mk.injEq]
    refine ⟨by ring, by ring, by ring⟩

/-- Claim C5, counterexample: invoking the teaching core a second time on
the same resource raises no error at all and silently overwrites the first
committed location — teaching at `(1,1,1)` and then at `(2,2,2)` leaves
`location = (2,2,2)`, not the first committed `(1,1,1)`. -/
theorem teach_twice_counterexample :
    (resourceHere (resourceHere
        ⟨.other, Coordinate.zero, Coordinate.zero, 0, Coordinate.zero, none⟩
        ⟨1, 1, 1⟩) ⟨2, 2, 2⟩).location = some ⟨2, 2, 2⟩ ∧
    some (⟨2, 2, 2⟩ : Coordinate) ≠ some (⟨1, 1, 1⟩ : Coordinate) := by
  constructor
  · simp only [resourceHere, Coordinate.sub_def, Coordinate.zero,
      Option.some.injEq, Coordinate.mk.injEq]
    norm_num
  · simp only [ne_eq, Option.some.injEq, Coordinate.mk.injEq]
    norm_num

/-- Claim C5, amended: re-teaching is prevented only at the UI layer —
after a successful teach the row's button is disabled, so a second click
is a no-op and the first committed value stays; the core itself carries no
`AlreadyLocated` error and, invoked directly a second time, recomputes the
location purely from the second taught point. -/
theorem teach_twice_amended (res : TeachResource) (T1 T2 : Coordinate) :
    clickTeach (clickTeach ⟨res, true⟩ T1) T2 = clickTeach ⟨res, true⟩ T1 ∧
    (resourceHere (resourceHere res T1) T2).location
      = (resourceHere res T2).location := by
  obtain ⟨k, C, M, H, P, L⟩ := res
  cases k <;> exact ⟨rfl, rfl⟩

/-- Claim C1, counterexample: on an initialized controller at `(1,2,3)`,
`set_location(10, 20, 30)` against a backend that fails on the y axis
commits the internal position `(10,20,30)` — not `(10,2,3)` as the claim
predicts — because `super().set_location` latches all provided axes before
any gateway command; only x and y commands are issued (z is skipped) and
only the display keeps the old y and z. -/
theorem setAbsolute_commit_counterexample :
    rlSetLocation gwFailY (some ⟨1, 2, 3⟩) ⟨1, 2, 3⟩ (some 10) (some 20) (some 30)
      = .ok ⟨some ⟨10, 20, 30⟩, ⟨10, 2, 3⟩, [(.x, 10), (.y, 20)], true⟩ ∧
    some (⟨10, 20, 30⟩ : Coordinate) ≠ some (⟨10, 2, 3⟩ : Coordinate) := by
  constructor
  · rfl
  · simp only [ne_eq, Option.some.injEq, Coordinate.mk.injEq]
    norm_num

/-- Claim C1, amended: on an initialized controller, a three-axis absolute
set where the x command succeeds and the y command fails issues exactly
the x and y gateway commands in that order, stops before z, surfaces the
error (an alert is shown), and updates only the x display value — but the
internal committed position already holds all three new values, because
`LocationEditor.set_location` runs before any gateway command. -/
theorem setAbsolute_commit_before_send (gw : Gateway) (c d : Coordinate)
    (vx vy vz : ℚ) (hx : gw .x vx = true) (hy : gw .y vy = false) :
    rlSetLocation gw (some c) d (some vx) (some vy) (some vz)
      = .ok ⟨some ⟨vx, vy, vz⟩, d.setAxis .x vx, [(.x, vx), (.y, vy)], true⟩ := by
  simp only [rlSetLocation, baseSetLocation, applyAxes, hx, hy, Option.getD,
    if_true, if_false, Bool.false_eq_true, ite_false, ite_true]

/-- Claim C1, witness for the amended theorem at the concrete failing run. -/
theorem setAbsolute_commit_before_send_witness :
    rlSetLocation gwFailY (some ⟨1, 2, 3⟩) ⟨1, 2, 3⟩ (some 10) (some 20) (some 30)
      = .ok ⟨some ⟨10, 20, 30⟩, (⟨1, 2, 3⟩ : Coordinate).setAxis .x 10,
          [(.x, 10), (.y, 20)], true⟩ :=
  setAbsolute_commit_before_send gwFailY ⟨1, 2, 3⟩ ⟨1, 2, 3⟩ 10 20 30 rfl rfl

/-- Claim C6, counterexample: in the combined absolute update of
`ResourceLocatorWidget.set_location`, moving from `(0,0,100)` to
`(10,20,30)` — a decreasing z — issues the commands in the order x, y, z:
the z command is last, not first as the claim requires for decreasing z. -/
theorem zOrder_counterexample :
    rlSetLocation gwOk (some ⟨0, 0, 100⟩) ⟨0, 0, 100⟩ (some 10) (some 20) (some 30)
      = .ok ⟨some ⟨10, 20, 30⟩, ⟨10, 20, 30⟩, [(.x, 10), (.y, 20), (.z, 30)], false⟩ ∧
    List.head? [((Axis.x : Axis), (10 : ℚ)), (Axis.y, 20), (Axis.z, 30)]
      ≠ some (Axis.z, 30) := by
  constructor
  · rfl
  · simp

/-- Claim C6, amended: `ResourceLocatorWidget.set_location` always issues
the gateway commands in the fixed order x, y, z, whether z is increasing
or decreasing; the conditional policy exists only in the legacy variant
(`location_display_updated` in __main__.py) and with the opposite
polarity: there z is issued first when increasing and last when
decreasing. -/
theorem zOrder_always_xyz (c d : Coordinate) (vx vy vz sx sy sz x y z : ℚ) :
    rlSetLocation gwOk (some c) d (some vx) (some vy) (some vz)
      = .ok ⟨some ⟨vx, vy, vz⟩, ⟨vx, vy, vz⟩,
          [(.x, vx), (.y, vy), (.z, vz)], false⟩ ∧
    (sz < z → sx ≠ x → sy ≠ y →
      legacyUpdateOrder sx sy sz x y z = [(.z, z), (.x, x), (.y, y)]) ∧
    (z < sz → sx ≠ x → sy ≠ y →
      legacyUpdateOrder sx sy sz x y z = [(.x, x), (.y, y), (.z, z)]) := by
  refine ⟨?_, ?_, ?_⟩
  · simp only [rlSetLocation, baseSetLocation, applyAxes, gwOk,
      Coordinate.setAxis, Option.getD, if_true, ite_true]
  · intro h1 h2 h3
    have hne : sz ≠ z := ne_of_lt h1
    simp [legacyUpdateOrder, h1, h2, h3, hne]
  · intro h1 h2 h3
    have hne : sz ≠ z := Ne.symm (ne_of_lt h1)
    have hnlt : ¬ sz < z := not_lt_of_gt h1
    simp [legacyUpdateOrder, h2, h3, hne, hnlt]

/-- Claim C6, witness for the amended theorem: both legacy orderings at
concrete values. -/
theorem zOrder_always_xyz_witness :
    legacyUpdateOrder 0 0 0 1 1 1 = [(.z, 1), (.x, 1), (.y, 1)] ∧
    legacyUpdateOrder 0 0 1 1 1 0 = [(.x, 1), (.y, 1), (.z, 0)] :=
  ⟨(zOrder_always_xyz ⟨0, 0, 0⟩ ⟨0, 0, 0⟩ 0 0 0 0 0 0 1 1 1).2.1
      (by norm_num) (by norm_num) (by norm_num),
   (zOrder_always_xyz ⟨0, 0, 0⟩ ⟨0, 0, 0⟩ 0 0 0 0 0 1 1 1 0).2.2
      (by norm_num) (by norm_num) (by norm_num)⟩

/-- Claim C7, counterexample: a reference cell whose absolute-plus-center
x coordinate is 0.123 yields, after a successful pickup, a committed jog x
of `round(0.123, 1) = 0.1`, not the exact sum 0.123: the repositioning
formula is applied with each coordinate rounded to one decimal place. -/
theorem pickUpTip_rounding_counterexample :
    resultLoc (pickUpTipA1 gwOk true (some ⟨0, 0, 0⟩) ⟨0, 0, 0⟩
        ⟨⟨123 / 1000, 0, 0⟩, ⟨0, 0, 0⟩⟩ ⟨0⟩).1
      = some ⟨1 / 10, 0, 10⟩ ∧
    (1 / 10 : ℚ) ≠ 123 / 1000 := by
  constructor
  · simp only [pickUpTipA1, rlSetLocation, baseSetLocation, resultLoc,
      Coordinate.add_def, Option.getD, if_true, ite_true, Option.some.injEq,
      Coordinate.mk.injEq]
    refine ⟨?_, ?_, ?_⟩
    · rw [round1_eq (123 / 1000 + 0) 1 (by norm_num) (by norm_num)]
      norm_num
    · rw [round1_eq (0 + 0) 0 (by norm_num) (by norm_num)]
      norm_num
    · rw [round1_eq (0 + 0 + 0 + 10) 100 (by norm_num) (by norm_num)]
      norm_num
  · norm_num

/-- Claim C7, amended: after a successful reference-tip pickup, the jog
position is set to the reference cell's absolute location plus its
in-cell center offset in x and y, and in z to that sum plus the tip's
total length plus a fixed 10 mm clearance — each coordinate rounded to
one decimal place (`round(·, 1)`) before the absolute set. -/
theorem pickUpTip_position_amended (gw : Gateway) (c d : Coordinate)
    (spot : TipSpot) (tip : Tip) :
    resultLoc (pickUpTipA1 gw true (some c) d spot tip).1
      = some ⟨round1 (spot.absLocation.x + spot.center.x),
              round1 (spot.absLocation.y + spot.center.y),
              round1 (spot.absLocation.z + spot.center.z + tip.totalTipLength + 10)⟩ ∧
    (pickUpTipA1 gw true (some c) d spot tip).2 = true := by
  constructor
  · simp only [pickUpTipA1, rlSetLocation, baseSetLocation, resultLoc,
      Coordinate.add_def, Option.getD, if_true, ite_true]
  · rfl

/-- Claim C2: `add_intermediate_point` appends the `_location` object by
reference, not by value.  Tracing the code: after the first absolute set
to `(1,2,3)` and three waypoint additions, the list has length 3 in call
order — but a later jog of x to 11 mutates the single shared `Coordinate`
in place, so all three recorded waypoints read `(11,2,3)` instead of the
snapshot `(1,2,3)` values current at each call. -/
theorem waypoint_aliasing_bug :
    pathTraceAdded.points.length = 3 ∧
    observedPoints pathTraceAdded
      = [some ⟨1, 2, 3⟩, some ⟨1, 2, 3⟩, some ⟨1, 2, 3⟩] ∧
    observedPoints pathTraceJogged
      = [some ⟨11, 2, 3⟩, some ⟨11, 2, 3⟩, some ⟨11, 2, 3⟩] ∧
    observedPoints pathTraceJogged
      ≠ [some ⟨1, 2, 3⟩, some ⟨1, 2, 3⟩, some ⟨1, 2, 3⟩] := by
  refine ⟨rfl, rfl, rfl, ?_⟩
  intro h
  have h' : some (⟨11, 2, 3⟩ : Coordinate) = some ⟨1, 2, 3⟩ :=
    congrArg (fun l => l.headD none) h
  have hx : (11 : ℚ) = 1 := congrArg Coordinate.x (Option.some.inj h')
  norm_num at hx

/-- Claim C8: with zero waypoints and a set destination, the generator
yields a specification with an empty waypoint list and that destination,
and the rendered call expression is a bare `move_plate` with the correct
destination string (coordinate `repr` or a named `get_resource` lookup);
with no destination and no waypoints it yields the placeholder comment. -/
theorem transferSpec_empty_waypoints (reprC : Coordinate → String)
    (d : Destination) (c : Coordinate) (n : String) :
    generateTransferSpecification (some d) [] = ⟨some d, []⟩ ∧
    writePythonCode reprC (some d) []
      = "lh.move_plate(plate, to=" ++ destinationString reprC (some d) ++ ")" ∧
    destinationString reprC (some (.coord c)) = reprC c ∧
    destinationString reprC (some (.resource n))
      = "lh.deck.get_resource(\"" ++ n ++ "\")" ∧
    writePythonCode reprC none [] = "# add points or release plate to generate code" :=
  ⟨rfl, rfl, rfl, rfl, rfl⟩

/-- Claim C9: in the gamepad hand-off, a requested axis value of 0 or -1
(or an axis not requested at all) is emitted as -1 and decoded by the
handler as "not provided", so the resulting `set_location` call leaves
that axis of the internal position unchanged; consequently any axis value
the handler does pass through is neither 0 nor -1. -/
theorem gamepad_zero_negone (v : Option ℚ) (w : ℚ) (gw : Gateway)
    (c d : Coordinate) (ox oy oz a b e : Option ℚ) :
    gamepadDecoded v
      = (if v = some 0 ∨ v = some (-1) ∨ v = none then none else v) ∧
    (gamepadDecoded v = some w → w ≠ 0 ∧ w ≠ -1) ∧
    setLocationSignalHandler (gamepadEmit a b e)
      = (gamepadDecoded a, gamepadDecoded b, gamepadDecoded e) ∧
    (resultLoc (rlSetLocation gw (some c) d none oy oz)).map Coordinate.x
      = some c.x ∧
    (resultLoc (rlSetLocation gw (some c) d ox none oz)).map Coordinate.y
      = some c.y ∧
    (resultLoc (rlSetLocation gw (some c) d ox oy none)).map Coordinate.z
      = some c.z := by
  have hmain : gamepadDecoded v
      = (if v = some 0 ∨ v = some (-1) ∨ v = none then none else v) := by
    rcases v with _ | q
    · simp [gamepadDecoded, pyOrNegOne, decodeFlag]
    · by_cases h0 : q = 0
      · simp [gamepadDecoded, pyOrNegOne, decodeFlag, h0]
      · by_cases h1 : q = -1
        · simp [gamepadDecoded, pyOrNegOne, decodeFlag, h0, h1]
        · simp [gamepadDecoded, pyOrNegOne, decodeFlag, h0, h1]
  refine ⟨hmain, ?_, rfl, ?_, ?_, ?_⟩
  · intro hw
    rw [hmain] at hw
    by_cases hc : v = some 0 ∨ v = some (-1) ∨ v = none
    · simp [hc] at hw
    · simp only [hc, if_false] at hw
      push_neg at hc
      subst hw
      exact ⟨fun h => hc.1 (by rw [h]), fun h => hc.2.1 (by rw [h])⟩
  all_goals
    simp only [rlSetLocation, baseSetLocation, resultLoc, Option.getD,
      Option.map_some']

/-- Claim C9, witness: the value 5 passes through the hand-off and is
neither 0 nor -1. -/
theorem gamepad_zero_negone_witness : (5 : ℚ) ≠ 0 ∧ (5 : ℚ) ≠ -1 :=
  (gamepad_zero_negone (some 5) 5 gwOk ⟨1, 2, 3⟩ ⟨1, 2, 3⟩
      none none none none none none).2.1 (by norm_num [gamepadDecoded, pyOrNegOne, decodeFlag])

/-- Claim C10: every keyboard-driven relative move of the CLI jog tool
sends `move_arm` exactly the clamp of the raw distance (numeric prefix or
step size, signed by the key) to the interval [-99.9, 99.9] mm, and that
sent distance always lies in [-99.9, 99.9]. -/
theorem cli_distance_clamped (buffer : List ℕ) (stepSize : ℚ) (key : MoveKey) :
    processMoveKey buffer stepSize key
      = (key.axis,
         min (999 / 10) (max (-(999 / 10)) (rawDistance buffer stepSize key)),
         []) ∧
    -(999 / 10) ≤ (processMoveKey buffer stepSize key).2.1 ∧
    (processMoveKey buffer stepSize key).2.1 ≤ 999 / 10 := by
  refine ⟨rfl, ?_, ?_⟩
  · show -(999 / 10)
      ≤ min (999 / 10) (max (-(999 / 10)) (rawDistance buffer stepSize key))
    exact le_min (by norm_num) (le_max_left _ _)
  · exact min_le_left _ _

end RLP
